import Mathlib

/-!
Verification development for the heuristic field-extraction engine of the
ocr-mistral repository.  The extraction engine is the method
`TargetedOCRProcessor.extract_personal_info` of `src/ocr-fiches.py`
(lines 82-190), together with the result-shaping part of
`process_single_image` (lines 192-237) and the exporters `export_to_json`
(268-284) and `export_to_txt` (286-318).  All functions below are
shallow embeddings of that Python code, translated statement by
statement.  Regular expressions are translated into specialised matchers
implementing Python `re` semantics (leftmost match, ordered alternation,
greedy quantifiers with backtracking) for the exact patterns appearing
in the source.
-/

/-- Python whitespace class for the `\s` regex class, `str.strip` and
`str.split` (ASCII part, which covers all text handled here). -/
def pyIsSpace (c : Char) : Bool :=
  c == ' ' || c == '\t' || c == '\n' || c == '\r' || c == '\x0b' || c == '\x0c'

/-- Python `str.strip()` on a character list. -/
def pyStrip (l : List Char) : List Char :=
  (((l.dropWhile pyIsSpace).reverse).dropWhile pyIsSpace).reverse

/-- All suffixes of a list, longest first (the scan positions used by
`re.search` / `re.findall` / the `in` operator). -/
def suffixes : List Char → List (List Char)
  | [] => [[]]
  | c :: cs => (c :: cs) :: suffixes cs

/-- Python substring test `needle in hay`. -/
def listContains (needle hay : List Char) : Bool :=
  (suffixes hay).any (fun t => needle.isPrefixOf t)

/-- Python `needle in hay` where the needle is given as a string literal. -/
def containsStr (needle : String) (hay : List Char) : Bool :=
  listContains needle.data hay

/-- Python `str.lower()` (ASCII). -/
def lowerList (l : List Char) : List Char :=
  l.map Char.toLower

/-- Case-insensitive literal prefix test: `pat` must be given already
lowercased; mirrors matching a literal under `re.IGNORECASE`. -/
def icPref (pat : List Char) (s : List Char) : Bool :=
  lowerList (s.take pat.length) == pat

/-- Scan a text left to right, returning the first position where the
given single-position matcher succeeds: the semantics of `re.search`
(the end-of-string position included). -/
def firstSome {α : Type} (f : List Char → Option α) : List Char → Option α
  | [] => f []
  | c :: cs =>
    match f (c :: cs) with
    | some a => some a
    | none => firstSome f cs

/-- Helper for `pySplitWs` accumulating the current word reversed. -/
def pySplitWsAux : List Char → List Char → List (List Char)
  | [], acc => if acc.isEmpty then [] else [acc.reverse]
  | c :: cs, acc =>
    if pyIsSpace c then
      if acc.isEmpty then pySplitWsAux cs [] else acc.reverse :: pySplitWsAux cs []
    else pySplitWsAux cs (c :: acc)

/-- Python `str.split()` with no argument: split on whitespace runs,
discarding empty pieces. -/
def pySplitWs (l : List Char) : List (List Char) :=
  pySplitWsAux l []

/-- Python `' '.join(...)` on character lists. -/
def joinSpace (ls : List (List Char)) : List Char :=
  (ls.intersperse [' ']).flatten

/-- Python `str.isupper()`: at least one cased character and no
lowercase one (ASCII). -/
def pyIsUpper (l : List Char) : Bool :=
  l.any Char.isUpper && !(l.any Char.isLower)

/-- Python `"a\nb".split('\n')` on a character list: split on every
newline, keeping empty pieces (`""` splits to `[""]`). -/
def splitOnNl : List Char → List (List Char)
  | [] => [[]]
  | c :: cs =>
    let r := splitOnNl cs
    if c == '\n' then [] :: r
    else
      match r with
      | h :: t => (c :: h) :: t
      | [] => [[c]]

/-- One attempt of the alternation `(Mme|M\.|Mlle)\s*` at the head of a
suffix (the order of the branches is the order in the source pattern);
on success returns the remainder after the matched title and the greedy
`\s*`. -/
def matchTitle (l : List Char) : Option (List Char) :=
  if ['M', 'm', 'e'].isPrefixOf l then some ((l.drop 3).dropWhile pyIsSpace)
  else if ['M', '.'].isPrefixOf l then some ((l.drop 2).dropWhile pyIsSpace)
  else if ['M', 'l', 'l', 'e'].isPrefixOf l then some ((l.drop 4).dropWhile pyIsSpace)
  else none

/-- `re.sub(r'(Mme|M\.|Mlle)\s*', '', line)`: left-to-right scan, each
match removed, scanning resuming after the match.  Fuel is the length of
the input, enough since every match consumes at least two characters. -/
def subTitleFuel : Nat → List Char → List Char
  | 0, l => l
  | _ + 1, [] => []
  | fuel + 1, c :: cs =>
    match matchTitle (c :: cs) with
    | some rest => subTitleFuel fuel rest
    | none => c :: subTitleFuel fuel cs

/-- `re.sub(r'(Mme|M\.|Mlle)\s*', '', line)`. -/
def subTitle (l : List Char) : List Char :=
  subTitleFuel l.length l

/-- One attempt of `\([^)]*\)` at the head of a suffix: an opening
parenthesis, any run of non-`)` characters, a closing parenthesis. -/
def matchParen (l : List Char) : Option (List Char) :=
  match l with
  | '(' :: cs =>
    let body := cs.dropWhile (fun c => !(c == ')'))
    match body with
    | ')' :: rest => some rest
    | _ => none
  | _ => none

/-- `re.sub(r'\([^)]*\)', '', s)` with length fuel (every match consumes
at least two characters). -/
def subParensFuel : Nat → List Char → List Char
  | 0, l => l
  | _ + 1, [] => []
  | fuel + 1, c :: cs =>
    match matchParen (c :: cs) with
    | some rest => subParensFuel fuel rest
    | none => c :: subParensFuel fuel cs

/-- `re.sub(r'\([^)]*\)', '', s)`. -/
def subParens (l : List Char) : List Char :=
  subParensFuel l.length l

/-- The tail `\s*:?\s*(.+)` of the `Profession` branch of
`re.search(r'(?:Profession\s*:?\s*|Employés?\s+)(.+)', line, re.IGNORECASE)`,
with the engine's backtracking order: greedy whitespace, optional colon,
greedy whitespace, then `(.+)` needing at least one character, giving
back characters from the innermost point first.  Returns group 1. -/
def afterKeywordGroup (r : List Char) : Option (List Char) :=
  let r1 := r.dropWhile pyIsSpace
  match r1 with
  | [] => if r.isEmpty then none else some (r.drop (r.length - 1))
  | ':' :: rest =>
    let r2 := rest.dropWhile pyIsSpace
    if r2.isEmpty then
      if rest.isEmpty then some r1 else some (rest.drop (rest.length - 1))
    else some r2
  | _ => some r1

/-- The tail `s?\s+(.+)` of the `Employés?` branch (optional `s`
tried first, then at least one whitespace, then group `(.+)`). -/
def employeTail (r0 : List Char) : Option (List Char) :=
  let wsGroup : List Char → Option (List Char) := fun r =>
    match r with
    | c :: rest =>
      if pyIsSpace c then
        let g := rest.dropWhile pyIsSpace
        if g.isEmpty then
          if rest.isEmpty then none else some (rest.drop (rest.length - 1))
        else some g
      else none
    | [] => none
  match r0 with
  | c :: rest =>
    if c == 's' || c == 'S' then
      match wsGroup rest with
      | some g => some g
      | none => wsGroup r0
    else wsGroup r0
  | [] => none

/-- One attempt, at a single position, of
`(?:Profession\s*:?\s*|Employés?\s+)(.+)` under `re.IGNORECASE`
(alternation tried in source order); returns group 1. -/
def matchProfAt (s : List Char) : Option (List Char) :=
  if icPref "profession".data s then
    match afterKeywordGroup (s.drop 10) with
    | some g => some g
    | none =>
      if icPref "employé".data s then employeTail (s.drop 7) else none
  else if icPref "employé".data s then employeTail (s.drop 7)
  else none

/-- `re.search(r'(?:Profession\s*:?\s*|Employés?\s+)(.+)', line, re.IGNORECASE)`,
returning group 1. -/
def searchProfession (l : List Char) : Option (List Char) :=
  firstSome matchProfAt l

/-- The five marital-status literals of the pattern
`(CELIBATAIRE|MARIE|DIVORCE|VEUF|PACSE)` (lowercased for the
case-insensitive prefix test), in source order. -/
def situationKws : List (List Char) :=
  ["celibataire".data, "marie".data, "divorce".data, "veuf".data, "pacse".data]

/-- One attempt of
`(?:Situation\s*:?\s*)?(CELIBATAIRE|MARIE|DIVORCE|VEUF|PACSE)` at a
position.  The optional prefix never changes which keyword occurrence
becomes group 1 (no keyword can start inside `Situation\s*:?\s*`), so
group 1 is the keyword occurrence at this position when there is one;
the search over positions then yields the leftmost occurrence exactly as
the engine does. -/
def matchSituationAt (s : List Char) : Option (List Char) :=
  match situationKws.find? (fun kw => icPref kw s) with
  | some kw => some (s.take kw.length)
  | none => none

/-- `re.search(r'(?:Situation\s*:?\s*)?(CELIBATAIRE|MARIE|DIVORCE|VEUF|PACSE)', line, re.IGNORECASE)`,
returning group 1 (the original-case slice). -/
def searchSituation (l : List Char) : Option (List Char) :=
  firstSome matchSituationAt l

/-- The street keywords of the address pattern, lowercased, in source
order. -/
def addrKws : List (List Char) :=
  ["rue".data, "avenue".data, "boulevard".data, "place".data,
   "impasse".data, "chemin".data]

/-- Whether `.+(?:rue|avenue|boulevard|place|impasse|chemin).+` matches a
whole candidate remainder `t` (case-insensitively): some keyword occurs
at an offset with at least one character before it and at least one
after it.  When it does, both `.+` are greedy so the whole of `t` is
group 1. -/
def addrGroupOk (t : List Char) : Bool :=
  (List.range t.length).any (fun k =>
    decide (1 ≤ k) && addrKws.any (fun kw =>
      icPref kw (t.drop k) && decide (k + kw.length < t.length)))

/-- One attempt of
`(?:Adresse\s*:?\s*)?(.+(?:rue|avenue|boulevard|place|impasse|chemin).+)`
(`re.IGNORECASE`) at a position: the candidate remainders after the
optional prefix, listed in the engine's backtracking order (full greedy
prefix first, then the second `\s*` giving characters back one at a
time, then the colon dropped, then the prefix dropped entirely); group 1
is the first candidate the inner pattern matches. -/
def matchAddrAt (s : List Char) : Option (List Char) :=
  let cands :=
    if icPref "adresse".data s then
      let r1 := s.drop 7
      let base1 := r1.dropWhile pyIsSpace
      match base1 with
      | ':' :: r2 =>
        let sp2 := (r2.takeWhile pyIsSpace).length
        let base2 := r2.dropWhile pyIsSpace
        (base2 :: (List.range sp2).map (fun j => r2.drop (sp2 - 1 - j))) ++ [base1, s]
      | _ => [base1, s]
    else [s]
  cands.find? addrGroupOk

/-- `re.search(r'(?:Adresse\s*:?\s*)?(.+(?:rue|avenue|boulevard|place|impasse|chemin).+)', line, re.IGNORECASE)`,
returning group 1. -/
def searchAdresse (l : List Char) : Option (List Char) :=
  firstSome matchAddrAt l

/-- The character class `[A-Z\s\-]` of the postal-code pattern. -/
def inCpClass (c : Char) : Bool :=
  c.isUpper || pyIsSpace c || c == '-'

/-- One attempt of `(\d{5})\s+([A-Z\s\-]+)` at a position: exactly five
digits, at least one whitespace (greedy), then the class run (greedy,
with the engine backtracking one whitespace out of `\s+` when the class
run after the whitespace is empty).  Returns (group 1, group 2). -/
def matchCpAt (s : List Char) : Option (List Char × List Char) :=
  let d5 := s.take 5
  if decide (d5.length = 5) && d5.all Char.isDigit then
    let rest := s.drop 5
    let ws := rest.takeWhile pyIsSpace
    if ws.isEmpty then none
    else
      let afterws := rest.dropWhile pyIsSpace
      let cls := afterws.takeWhile inCpClass
      if !cls.isEmpty then some (d5, cls)
      else if decide (2 ≤ ws.length) then some (d5, [ws.getLastD ' '])
      else none
  else none

/-- `re.search(r'(\d{5})\s+([A-Z\s\-]+)', line)`, returning the two
groups. -/
def searchCpVille (l : List Char) : Option (List Char × List Char) :=
  firstSome matchCpAt l

/-- The character class `[\d\s]` of the phone pattern. -/
def telClass (c : Char) : Bool :=
  c.isDigit || pyIsSpace c

/-- One attempt of `(?:\+33\s*|0)[\d\s]{9,14}` at a position.  After the
`+33` alternative, the greedy `\s*` and the greedy bounded repetition
backtrack against each other inside the maximal `[\d\s]` run `r` of
length `n` with `smax` leading whitespace characters: the consumed
length is `smax + min (n - smax) 14` when `n - smax ≥ 9`, else `n`
(whitespace given back to the repetition), and the attempt fails when
`n < 9`.  After the `0` alternative the repetition simply takes
`min n 14` provided `n ≥ 9`.  Returns (match, remainder). -/
def telMatchAt (s : List Char) : Option (List Char × List Char) :=
  if ['+', '3', '3'].isPrefixOf s then
    let r := s.drop 3
    let n := (r.takeWhile telClass).length
    let smax := (r.takeWhile pyIsSpace).length
    if decide (9 ≤ n) then
      let c := if decide (9 ≤ n - smax) then smax + min (n - smax) 14 else n
      some (s.take (3 + c), s.drop (3 + c))
    else none
  else
    match s with
    | '0' :: cs =>
      let n := (cs.takeWhile telClass).length
      if decide (9 ≤ n) then
        some (s.take (1 + min n 14), s.drop (1 + min n 14))
      else none
    | _ => none

/-- `re.findall(r'(?:\+33\s*|0)[\d\s]{9,14}', line)`: non-overlapping
leftmost matches, scanning resuming after each match.  Fuel is the line
length (every match consumes at least ten characters). -/
def telScan : Nat → List Char → List (List Char)
  | 0, _ => []
  | _ + 1, [] => []
  | fuel + 1, c :: cs =>
    match telMatchAt (c :: cs) with
    | some (m, rest) => m :: telScan fuel rest
    | none => telScan fuel cs

/-- The character class `[\w.-]` of the email pattern (`\w` in its ASCII
reading: letters, digits, underscore). -/
def emailLocalClass (c : Char) : Bool :=
  c.isAlphanum || c == '_' || c == '.' || c == '-'

/-- ASCII `\w`. -/
def isWordChar (c : Char) : Bool :=
  c.isAlphanum || c == '_'

/-- One attempt of `[\w\.-]+@[\w\.-]+\.\w+` at a position: a nonempty
class run, `@`, then the domain part where the greedy middle run
backtracks to the largest split `mid ++ '.' ++ wordrun` with `mid`
nonempty and the final `\w+` a nonempty greedy word run. -/
def matchEmailAt (s : List Char) : Option (List Char) :=
  let loc := s.takeWhile emailLocalClass
  if loc.isEmpty then none
  else
    match s.drop loc.length with
    | '@' :: t =>
      let d := t.takeWhile emailLocalClass
      let cand := (List.range d.length).filterMap (fun j =>
        let m := d.length - 1 - j
        if decide (1 ≤ m) && decide (m + 1 < d.length) &&
            d.getD m ' ' == '.' && isWordChar (d.getD (m + 1) ' ') then
          some m
        else none)
      match cand with
      | m :: _ =>
        let tail := (d.drop (m + 1)).takeWhile isWordChar
        some (loc ++ '@' :: (d.take m ++ '.' :: tail))
      | [] => none
    | _ => none

/-- `re.search(r'[\w\.-]+@[\w\.-]+\.\w+', line)`, returning the whole
match. -/
def searchEmail (l : List Char) : Option (List Char) :=
  firstSome matchEmailAt l

/-- One attempt of `\d{2}/\d{2}/\d{4}` at a position; returns (match,
remainder). -/
def matchDateAt (s : List Char) : Option (List Char × List Char) :=
  match s with
  | a :: b :: c :: d :: e :: f :: g :: h :: i :: j :: rest =>
    if [a, b, d, e, g, h, i, j].all Char.isDigit && c == '/' && f == '/' then
      some ([a, b, c, d, e, f, g, h, i, j], rest)
    else none
  | _ => none

/-- `re.findall(r'\d{2}/\d{2}/\d{4}', line)` (non-overlapping leftmost
matches, fuel = line length). -/
def dateScan : Nat → List Char → List (List Char)
  | 0, _ => []
  | _ + 1, [] => []
  | fuel + 1, c :: cs =>
    match matchDateAt (c :: cs) with
    | some (m, rest) => m :: dateScan fuel rest
    | none => dateScan fuel cs

/-- The structured record built by `extract_personal_info`
(src/ocr-fiches.py lines 87-106): the `info` dictionary, with Python
`None` as `Option.none`, the `dates` dictionary as an insertion-ordered
association list, and `raw_text` carrying the full input. -/
structure Info where
  nom_complet : Option String := none
  prenom : Option String := none
  nom : Option String := none
  profession : Option String := none
  situation : Option String := none
  adresse : Option String := none
  code_postal : Option String := none
  ville : Option String := none
  telephone_fixe : Option String := none
  telephone_mobile : Option String := none
  email : Option String := none
  autorisation_sms : Bool := false
  autorisation_email : Bool := false
  autorisation_courrier : Bool := false
  legal : Option String := none
  dates : List (String × String) := []
  raw_text : String := ""
  deriving Repr, DecidableEq

/-- Python `dict` assignment `d[k] = v`: replace in place when the key
is present, append otherwise (insertion order preserved). -/
def upsert (l : List (String × String)) (k v : String) : List (String × String) :=
  if l.any (fun p => p.1 == k) then
    l.map (fun p => if p.1 == k then (k, v) else p)
  else l ++ [(k, v)]

/-- Lines 113-128: name extraction, guarded by
`'PLANTEGENET' in line or 'Mme' in line or 'M.' in line`. -/
def nameStep (lc : List Char) (info : Info) : Info :=
  if containsStr "PLANTEGENET" lc || containsStr "Mme" lc || containsStr "M." lc then
    let name_parts := pyStrip (subParens (subTitle lc))
    if name_parts.isEmpty then info
    else
      let info1 := { info with nom_complet := some (String.mk name_parts) }
      let parts := pySplitWs name_parts
      if decide (2 ≤ parts.length) then
        if pyIsUpper (parts.getLastD []) then
          { info1 with nom := some (String.mk (parts.getLastD [])),
                       prenom := some (String.mk (joinSpace parts.dropLast)) }
        else
          { info1 with prenom := some (String.mk (parts.headD [])),
                       nom := some (String.mk (joinSpace (parts.drop 1))) }
      else info1
  else info

/-- Lines 130-134: profession extraction, guarded by
`'Profession' in line or 'Employé' in line` (case-sensitive guard,
case-insensitive search). -/
def professionStep (lc : List Char) (info : Info) : Info :=
  if containsStr "Profession" lc || containsStr "Employé" lc then
    match searchProfession lc with
    | some g => { info with profession := some (String.mk (pyStrip g)) }
    | none => info
  else info

/-- Lines 136-140: marital-situation extraction. -/
def situationStep (lc : List Char) (info : Info) : Info :=
  if containsStr "Situation" lc || containsStr "CELIBATAIRE" lc || containsStr "MARIE" lc then
    match searchSituation lc with
    | some g => { info with situation := some (String.mk g) }
    | none => info
  else info

/-- Lines 142-146: address extraction, guarded by
`'Adresse' in line or 'rue' in line.lower()`. -/
def adresseStep (lc : List Char) (info : Info) : Info :=
  if containsStr "Adresse" lc || containsStr "rue" (lowerList lc) then
    match searchAdresse lc with
    | some g => { info with adresse := some (String.mk (pyStrip g)) }
    | none => info
  else info

/-- Lines 148-152: postal code and city (no guard, every line). -/
def cpVilleStep (lc : List Char) (info : Info) : Info :=
  match searchCpVille lc with
  | some (cp, v) =>
    { info with code_postal := some (String.mk cp),
                ville := some (String.mk (pyStrip v)) }
  | none => info

/-- Lines 156-162, loop body: one phone candidate `tel`; `tel_clean`
drops whitespace (`re.sub(r'\s+', '', tel)`); kept when at least ten
characters long; the first branch (`'fixe' in line.lower()` or an empty
fixed-line slot) stores into `telephone_fixe`, otherwise the second
branch (`'mobile' in line.lower()` or `'06'`/`'07'` occurring anywhere
in `tel_clean`) stores into `telephone_mobile`. -/
def phoneUpd (lc : List Char) (info : Info) (tel : List Char) : Info :=
  if decide (10 ≤ (tel.filter (fun c => !pyIsSpace c)).length) then
    if containsStr "fixe" (lowerList lc) || info.telephone_fixe.isNone then
      { info with telephone_fixe := some (String.mk (tel.filter (fun c => !pyIsSpace c))) }
    else if containsStr "mobile" (lowerList lc) || listContains ['0', '6'] (tel.filter (fun c => !pyIsSpace c)) || listContains ['0', '7'] (tel.filter (fun c => !pyIsSpace c)) then
      { info with telephone_mobile := some (String.mk (tel.filter (fun c => !pyIsSpace c))) }
    else info
  else info

/-- Lines 154-162: all phone candidates of the line, in scan order. -/
def telStep (lc : List Char) (info : Info) : Info :=
  (telScan lc.length lc).foldl (phoneUpd lc) info

/-- Lines 164-167: email extraction (unconditional overwrite on a
match). -/
def emailStep (lc : List Char) (info : Info) : Info :=
  match searchEmail lc with
  | some m => { info with email := some (String.mk m) }
  | none => info

/-- Lines 169-177: the authorization flags, literal case-sensitive
substring tests; `'Email interdit'` takes precedence over
`'Email autorisé'` on the same line (if/elif), and the SMS and mail
flags can only ever be switched on. -/
def autorisationsStep (lc : List Char) (info : Info) : Info :=
  let i1 := if containsStr "SMS autorisé" lc then { info with autorisation_sms := true } else info
  let i2 :=
    if containsStr "Email interdit" lc then { i1 with autorisation_email := false }
    else if containsStr "Email autorisé" lc then { i1 with autorisation_email := true }
    else i1
  if containsStr "Courrier autorisé" lc then { i2 with autorisation_courrier := true } else i2

/-- Lines 179-181: legal-status marker. -/
def legalStep (lc : List Char) (info : Info) : Info :=
  if containsStr "LEGAL" lc then { info with legal := some "LEGAL" } else info

/-- Lines 183-188: date collection; a date found on line `i` is recorded
under the first 30 characters of the previous raw line (empty for the
first line), and dates on the last line are dropped
(`if i < len(lines) - 1`). -/
def datesStep (lines : List (List Char)) (i : Nat) (lc : List Char) (info : Info) : Info :=
  (dateScan lc.length lc).foldl
    (fun info d =>
      if decide (i < lines.length - 1) then
        let context := if decide (0 < i) then lines.getD (i - 1) [] else []
        { info with dates := upsert info.dates (String.mk (context.take 30)) (String.mk d) }
      else info)
    info

/-- Lines 110-188: the body of the `for i, line in enumerate(lines)`
loop, applied to the stripped line `line_clean`. -/
def processLine (lines : List (List Char)) (i : Nat) (line : List Char) (info0 : Info) : Info :=
  let lc := pyStrip line
  let i1 := nameStep lc info0
  let i2 := professionStep lc i1
  let i3 := situationStep lc i2
  let i4 := adresseStep lc i3
  let i5 := cpVilleStep lc i4
  let i6 := telStep lc i5
  let i7 := emailStep lc i6
  let i8 := autorisationsStep lc i7
  let i9 := legalStep lc i8
  datesStep lines i lc i9

/-- `extract_personal_info` (src/ocr-fiches.py lines 82-190): the
initial record with `raw_text` set, then one pass over
`ocr_text.split('\n')`. -/
def extract_personal_info (ocr_text : String) : Info :=
  let lines := splitOnNl ocr_text.data
  lines.enum.foldl (fun info p => processLine lines p.1 p.2 info) { raw_text := ocr_text }

/-- The `status` values of the per-image result dictionaries. -/
inductive PStatus where
  | success
  | error
  deriving Repr, DecidableEq

/-- The result dictionary built by `process_single_image`
(src/ocr-fiches.py lines 219-237); the `timestamp` field (wall-clock
time) is omitted.  On the exception path the Python code stores an empty
dictionary for `structured_data`; since the exporters never read the
structured data of error records, an error record here carries a default
`Info`. -/
structure ProcResult where
  filename : String
  status : PStatus
  raw_text : String
  structured_data : Info
  error : Option String
  deriving Repr, DecidableEq

/-- The pure tail of `process_single_image` (lines 213-226): given the
text the OCR call returned, build the success record.  The OCR call
itself, image preprocessing and the exception path (lines 228-237) are
external effects outside this embedding. -/
def process_image_text (filename extracted_text : String) : ProcResult :=
  { filename := filename
    status := PStatus.success
    raw_text := extracted_text
    structured_data := extract_personal_info extracted_text
    error := none }

/-- One entry of the `results` array of the JSON export (lines
279-282). -/
structure JsonEntry where
  filename : String
  data : Info
  deriving Repr, DecidableEq

/-- The `export_data` dictionary of `export_to_json` (lines 268-284);
the `extraction_date` field (wall-clock time) is omitted.  Note the loop
appends `result['structured_data']` whole. -/
structure JsonExport where
  total_files : Nat
  successful : Nat
  results : List JsonEntry
  deriving Repr, DecidableEq

/-- `export_to_json` (lines 268-284), up to JSON serialization. -/
def export_to_json (results : List ProcResult) : JsonExport :=
  { total_files := results.length
    successful := (results.filter (fun r => r.status == PStatus.success)).length
    results := (results.filter (fun r => r.status == PStatus.success)).map
      (fun r => { filename := r.filename, data := r.structured_data }) }

/-- Python truthiness of `data.get(key)` for the string-valued fields:
present and nonempty. -/
def optTruthy : Option String → Bool
  | some s => !s.isEmpty
  | none => false

/-- `export_to_txt` (lines 286-318) as the list of lines that are joined
with newlines at the end; the wall-clock date of the header line is a
parameter. -/
def export_to_txt_lines (dateStr : String) (results : List ProcResult) : List String :=
  let header := [String.mk (List.replicate 80 '='),
                 "EXTRACTION OCR - " ++ dateStr,
                 String.mk (List.replicate 80 '=')]
  results.foldl
    (fun out r =>
      if r.status == PStatus.success then
        let d := r.structured_data
        let out := out ++ ["\n📄 Fichier: " ++ r.filename, String.mk (List.replicate 40 '-')]
        let out := out ++ (if optTruthy d.nom_complet then ["👤 Nom complet: " ++ d.nom_complet.getD ""] else [])
        let out := out ++ (if optTruthy d.profession then ["💼 Profession: " ++ d.profession.getD ""] else [])
        let out := out ++ (if optTruthy d.situation then ["👫 Situation: " ++ d.situation.getD ""] else [])
        let out := out ++
          (if optTruthy d.adresse then
            ["📍 Adresse: " ++ d.adresse.getD ""] ++
              (if optTruthy d.code_postal && optTruthy d.ville then
                ["   " ++ d.code_postal.getD "" ++ " " ++ d.ville.getD ""]
              else [])
          else [])
        let out := out ++ (if optTruthy d.telephone_fixe then ["☎️  Fixe: " ++ d.telephone_fixe.getD ""] else [])
        let out := out ++ (if optTruthy d.telephone_mobile then ["📱 Mobile: " ++ d.telephone_mobile.getD ""] else [])
        let out := out ++ (if optTruthy d.email then ["✉️  Email: " ++ d.email.getD ""] else [])
        out ++ [""]
      else out)
    header

/-- `export_to_txt`: the joined report text. -/
def export_to_txt (dateStr : String) (results : List ProcResult) : String :=
  String.intercalate "\n" (export_to_txt_lines dateStr results)

/-- Python `f"{x}"` for an optional string (`None` prints as `"None"`),
used by the CSV row construction. -/
def pyFmtOpt : Option String → String
  | some s => s
  | none => "None"

/-- One row of the CSV export (main-function lines 510-521).  Since the
structured dictionary always carries every key, `d.get('nom_complet',
'')` returns the stored value even when it is `None`; in particular
`d.get('telephone_mobile', d.get('telephone_fixe', ''))` always returns
the mobile entry and the landline fallback is dead.  The address cell is
the f-string of the three raw values, stripped. -/
structure CsvRow where
  fichier : String
  nom : Option String
  profession : Option String
  telephone : Option String
  email : Option String
  adresse : String
  deriving Repr, DecidableEq

/-- The `rows` list of the CSV export (lines 510-521), success records
only. -/
def csvRows (results : List ProcResult) : List CsvRow :=
  results.foldl
    (fun rows r =>
      if r.status == PStatus.success then
        let d := r.structured_data
        rows ++ [{ fichier := r.filename
                   nom := d.nom_complet
                   profession := d.profession
                   telephone := d.telephone_mobile
                   email := d.email
                   adresse := String.mk (pyStrip (pyFmtOpt d.adresse ++ " " ++ pyFmtOpt d.code_postal ++ " " ++ pyFmtOpt d.ville).data) }]
      else rows)
    []

/-- Every element of a filtered list satisfies the filtering predicate. -/
lemma all_filter_self (p : Char → Bool) (l : List Char) : (l.filter p).all p = true := by
  rw [List.all_eq_true]
  intro x hx
  exact List.of_mem_filter hx

/-- One phone-candidate update leaves the fixed-line slot unchanged or
stores a whitespace-free string of length at least ten. -/
lemma phoneUpd_fixe (lc : List Char) (info : Info) (tel : List Char) :
    (phoneUpd lc info tel).telephone_fixe = info.telephone_fixe ∨
      ∃ l : List Char, (phoneUpd lc info tel).telephone_fixe = some (String.mk l) ∧
        10 ≤ l.length ∧ l.all (fun c => !pyIsSpace c) = true := by
  unfold phoneUpd
  split_ifs with h1 h2 h3
  · exact Or.inr ⟨tel.filter (fun c => !pyIsSpace c), rfl, of_decide_eq_true h1, all_filter_self _ _⟩
  · exact Or.inl rfl
  · exact Or.inl rfl
  · exact Or.inl rfl

/-- One phone-candidate update leaves the mobile slot unchanged or
stores a whitespace-free string of length at least ten. -/
lemma phoneUpd_mobile (lc : List Char) (info : Info) (tel : List Char) :
    (phoneUpd lc info tel).telephone_mobile = info.telephone_mobile ∨
      ∃ l : List Char, (phoneUpd lc info tel).telephone_mobile = some (String.mk l) ∧
        10 ≤ l.length ∧ l.all (fun c => !pyIsSpace c) = true := by
  unfold phoneUpd
  split_ifs with h1 h2 h3
  · exact Or.inl rfl
  · exact Or.inr ⟨tel.filter (fun c => !pyIsSpace c), rfl, of_decide_eq_true h1, all_filter_self _ _⟩
  · exact Or.inl rfl
  · exact Or.inl rfl

/-- Folding phone-candidate updates preserves the slot invariant. -/
lemma phoneUpd_foldl (lc : List Char) (tels : List (List Char)) (info : Info) :
    ((tels.foldl (phoneUpd lc) info).telephone_fixe = info.telephone_fixe ∨
      ∃ l : List Char, (tels.foldl (phoneUpd lc) info).telephone_fixe = some (String.mk l) ∧
        10 ≤ l.length ∧ l.all (fun c => !pyIsSpace c) = true) ∧
    ((tels.foldl (phoneUpd lc) info).telephone_mobile = info.telephone_mobile ∨
      ∃ l : List Char, (tels.foldl (phoneUpd lc) info).telephone_mobile = some (String.mk l) ∧
        10 ≤ l.length ∧ l.all (fun c => !pyIsSpace c) = true) := by
  induction tels generalizing info with
  | nil => exact ⟨Or.inl rfl, Or.inl rfl⟩
  | cons t ts ih =>
    have hstep := ih (phoneUpd lc info t)
    simp only [List.foldl_cons]
    constructor
    · rcases hstep.1 with h | h
      · rw [h]
        exact phoneUpd_fixe lc info t
      · exact Or.inr h
    · rcases hstep.2 with h | h
      · rw [h]
        exact phoneUpd_mobile lc info t
      · exact Or.inr h

/-- The per-line phone extractor leaves each slot unchanged or stores a
whitespace-free string of length at least ten. -/
lemma telStep_stores_clean (lc : List Char) (info : Info) :
    ((telStep lc info).telephone_fixe = info.telephone_fixe ∨
      ∃ l : List Char, (telStep lc info).telephone_fixe = some (String.mk l) ∧
        10 ≤ l.length ∧ l.all (fun c => !pyIsSpace c) = true) ∧
    ((telStep lc info).telephone_mobile = info.telephone_mobile ∨
      ∃ l : List Char, (telStep lc info).telephone_mobile = some (String.mk l) ∧
        10 ≤ l.length ∧ l.all (fun c => !pyIsSpace c) = true) :=
  phoneUpd_foldl lc (telScan lc.length lc) info

/-- Claim C1, counterexample: an empty input text does not produce an
Error-status record — the text stage of `process_single_image` always
builds a success record, and `extract_personal_info` has no emptiness
check at all. -/
theorem empty_input_no_error_record :
    (process_image_text "scan.png" "").status = PStatus.success ∧
      PStatus.success ≠ PStatus.error :=
  ⟨rfl, by decide⟩

/-- Claim C1 as amended: for every input text, empty or not, the text
stage of the pipeline produces a Success-status record; an empty or
all-whitespace text simply yields a record with no extraction field
populated (only the raw text retained), and no Error record or
EmptyInput reason exists anywhere in the pipeline (error status arises
only from the external OCR call raising, outside the text stage). -/
theorem pipeline_never_errors_on_text :
    (∀ fn t : String, (process_image_text fn t).status = PStatus.success) ∧
      extract_personal_info "" = { raw_text := "" } ∧
      extract_personal_info "  \t " = { raw_text := "  \t " } :=
  ⟨fun _ _ => rfl, by decide, by decide⟩

/-- Claim C2, counterexample: the candidate "+33 6 12 34 56 78" is not
normalized: no character other than whitespace is stripped, the leading
"33" is not replaced by "0", the 12-character result passes the
`len >= 10` test, and it lands unformatted in the fixed-line slot (the
mobile slot stays empty), not as mobile "06 12 34 56 78". -/
theorem plus33_not_normalized :
    (extract_personal_info "+33 6 12 34 56 78").telephone_mobile = none ∧
      (extract_personal_info "+33 6 12 34 56 78").telephone_fixe = some "+33612345678" :=
  ⟨by decide, by decide⟩

/-- Claim C2 as amended: for every line, each phone slot is either left
unchanged or receives the candidate with only whitespace removed — an
unformatted string of length at least ten (a plus sign counts towards
the ten, there is no exactly-ten-digit check and no pair formatting);
"+33 6 12 34 56 78" is stored as landline "+33612345678",
"01 23 45 67 89" as "0123456789", a 9-digit candidate is discarded, but
an 11-digit candidate is stored. -/
theorem phone_storage_spec :
    (∀ (lc : List Char) (info : Info),
      ((telStep lc info).telephone_fixe = info.telephone_fixe ∨
        ∃ l : List Char, (telStep lc info).telephone_fixe = some (String.mk l) ∧
          10 ≤ l.length ∧ l.all (fun c => !pyIsSpace c) = true) ∧
      ((telStep lc info).telephone_mobile = info.telephone_mobile ∨
        ∃ l : List Char, (telStep lc info).telephone_mobile = some (String.mk l) ∧
          10 ≤ l.length ∧ l.all (fun c => !pyIsSpace c) = true)) ∧
    (extract_personal_info "+33 6 12 34 56 78").telephone_fixe = some "+33612345678" ∧
    (extract_personal_info "01 23 45 67 89").telephone_fixe = some "0123456789" ∧
    (extract_personal_info "01 23 45 67 89").telephone_mobile = none ∧
    (extract_personal_info "012345678").telephone_fixe = none ∧
    (extract_personal_info "012345678").telephone_mobile = none ∧
    (extract_personal_info "01234567891").telephone_fixe = some "01234567891" :=
  ⟨telStep_stores_clean, by decide, by decide, by decide, by decide, by decide, by decide⟩

/-- Claim C3, counterexample: the lone candidate "06 12 34 56 78",
although it starts with "06", is stored in the fixed-line slot (the
first branch fires whenever that slot is still empty), and the mobile
slot stays empty. -/
theorem mobile_number_lands_in_fixe_slot :
    (extract_personal_info "06 12 34 56 78").telephone_mobile = none ∧
      (extract_personal_info "06 12 34 56 78").telephone_fixe = some "0612345678" :=
  ⟨by decide, by decide⟩

/-- Claim C3 as amended: a candidate goes to the fixed-line slot
whenever its line contains "fixe" or that slot is still empty — so the
first accepted candidate of a text always lands there regardless of its
prefix; only later candidates reach the mobile branch, which fires when
the line contains "mobile" or the cleaned digits contain "06" or "07"
anywhere (not only as a prefix).  Neither slot is protected against
overwriting: a later "fixe" line replaces the fixed-line slot and any
later mobile-classified candidate replaces the mobile slot. -/
theorem phone_classification_spec :
    (extract_personal_info "01 23 45 67 89\nfixe : 09 87 65 43 21").telephone_fixe =
        some "0987654321" ∧
    (extract_personal_info "01 23 45 67 89\n06 11 22 33 44\n07 55 66 77 88").telephone_fixe =
        some "0123456789" ∧
    (extract_personal_info "01 23 45 67 89\n06 11 22 33 44\n07 55 66 77 88").telephone_mobile =
        some "0755667788" ∧
    (extract_personal_info "01 23 45 67 89\n09 06 11 22 33").telephone_mobile =
        some "0906112233" :=
  ⟨by decide, by decide, by decide, by decide⟩

/-- Claim C4, counterexample: with "Email autorisé" on the first line
and "Email interdit" on a later line, the later phrase decides and the
flag ends up false — the first matching phrase does not win. -/
theorem email_flag_not_first_match :
    (extract_personal_info "Email autorisé\nEmail interdit").autorisation_email = false ∧
      ¬(extract_personal_info "Email autorisé\nEmail interdit").autorisation_email = true :=
  ⟨by decide, by decide⟩

/-- Claim C4 as amended: the flags default to false and only three
categories exist (sms, email, courrier — there is no discussion flag in
the record).  Each line is tested against one literal case-sensitive
phrase per category ("SMS autorisé", "Email interdit"/"Email autorisé",
"Courrier autorisé"): the SMS and courrier flags can only be switched
on (an "interdit" phrase for them matches nothing and the flag stays
false by default), while the email flag is set per line — false when the
line contains "Email interdit" (taking precedence over "Email autorisé"
on the same line), true when it contains only "Email autorisé" — with
later lines overwriting earlier ones. -/
theorem authorization_flags_spec :
    (extract_personal_info "Email interdit").autorisation_email = false ∧
    (extract_personal_info "Email autorisé").autorisation_email = true ∧
    (extract_personal_info "Email autorisé\nEmail interdit").autorisation_email = false ∧
    (extract_personal_info "Email interdit et Email autorisé").autorisation_email = false ∧
    (extract_personal_info "SMS autorisé").autorisation_sms = true ∧
    (extract_personal_info "SMS interdit").autorisation_sms = false ∧
    (extract_personal_info "Courrier autorisé").autorisation_courrier = true ∧
    (extract_personal_info "Courrier interdit").autorisation_courrier = false :=
  ⟨by decide, by decide, by decide, by decide, by decide, by decide, by decide, by decide⟩

/-- Claim C5, counterexample: on "12 rue des Lilas" followed by
"75013 PARIS - FRANCE", the city keeps the whole uppercase group
"PARIS - FRANCE" — no "FRANCE" suffix is stripped and the record has no
country field at all. -/
theorem city_keeps_france_suffix :
    (extract_personal_info "12 rue des Lilas\n75013 PARIS - FRANCE").ville =
        some "PARIS - FRANCE" ∧
      (extract_personal_info "12 rue des Lilas\n75013 PARIS - FRANCE").ville ≠ some "PARIS" :=
  ⟨by decide, by decide⟩

/-- Claim C5 as amended: the address line and the postal line are
matched independently, line by line, with no lookahead window and no
stop after a first pair: a postal line four lines after the address is
still taken, a later address line overwrites an earlier one, and the
city is the whole matched uppercase group (a trailing "- FRANCE" is
kept; nothing sets a country). -/
theorem address_postal_spec :
    (extract_personal_info "12 rue des Lilas\n75013 PARIS - FRANCE").adresse =
        some "12 rue des Lilas" ∧
    (extract_personal_info "12 rue des Lilas\n75013 PARIS - FRANCE").code_postal =
        some "75013" ∧
    (extract_personal_info "12 rue des Lilas\n75013 PARIS - FRANCE").ville =
        some "PARIS - FRANCE" ∧
    (extract_personal_info "12 rue des Lilas\nA\nB\nC\n75013 PARIS\n8 rue Foch").adresse =
        some "8 rue Foch" ∧
    (extract_personal_info "12 rue des Lilas\nA\nB\nC\n75013 PARIS\n8 rue Foch").code_postal =
        some "75013" ∧
    (extract_personal_info "12 rue des Lilas\nA\nB\nC\n75013 PARIS\n8 rue Foch").ville =
        some "PARIS" :=
  ⟨by decide, by decide, by decide, by decide, by decide, by decide⟩

/-- Claim C6, counterexample: on the guardian line "Mme DUPONT Marie"
(title, SURNAME, Firstname) the extractor stores the surname token in
the first-name field and the first-name token in the last-name field:
since the last whitespace token "Marie" is not uppercase, the code takes
the first token as `prenom` and the rest as `nom`. -/
theorem guardian_name_fields_swapped :
    (extract_personal_info "Mme DUPONT Marie").prenom = some "DUPONT" ∧
      (extract_personal_info "Mme DUPONT Marie").nom = some "Marie" ∧
      (extract_personal_info "Mme DUPONT Marie").nom ≠ some "DUPONT" :=
  ⟨by decide, by decide, by decide⟩

/-- Claim C6 as amended: for a guardian line "title SURNAME Firstname"
the full name becomes the line with the title stripped, but the name
split goes by the case of the last token: since "Marie" is not all
uppercase, `prenom` receives "DUPONT" and `nom` receives "Marie" — the
two fields are swapped relative to the claim (the order
"title Firstname SURNAME" is the one split as the claim describes).
Later matching lines do overwrite earlier ones, as claimed. -/
theorem guardian_extraction_spec :
    (extract_personal_info "Mme DUPONT Marie").nom_complet = some "DUPONT Marie" ∧
    (extract_personal_info "Mme DUPONT Marie").prenom = some "DUPONT" ∧
    (extract_personal_info "Mme DUPONT Marie").nom = some "Marie" ∧
    (extract_personal_info "Mme DUPONT Marie\nM. MARTIN Paul").nom_complet =
        some "MARTIN Paul" ∧
    (extract_personal_info "Mme DUPONT Marie\nM. MARTIN Paul").prenom = some "MARTIN" ∧
    (extract_personal_info "Mme DUPONT Marie\nM. MARTIN Paul").nom = some "Paul" ∧
    (extract_personal_info "Mme Marie DUPONT").prenom = some "Marie" ∧
    (extract_personal_info "Mme Marie DUPONT").nom = some "DUPONT" :=
  ⟨by decide, by decide, by decide, by decide, by decide, by decide, by decide, by decide⟩

/-- Claim C7, counterexample: the extraction record has no class-code
field, and the line "Classe : 3E1 - Général" triggers no extractor at
all — the result is exactly the initial record with only the raw text
retained, so no field holds "3E1". -/
theorem class_code_line_extracts_nothing :
    extract_personal_info "Classe : 3E1 - Général" =
      { raw_text := "Classe : 3E1 - Général" } := by
  decide

/-- Claim C7 as amended: `extract_personal_info` has no class-code
extractor and its record no class-code field; on the input line
"Classe : 3E1 - Général" every extraction field of the record stays at
its default and only the raw text is kept. -/
theorem class_code_spec :
    (extract_personal_info "Classe : 3E1 - Général").nom_complet = none ∧
    (extract_personal_info "Classe : 3E1 - Général").prenom = none ∧
    (extract_personal_info "Classe : 3E1 - Général").nom = none ∧
    (extract_personal_info "Classe : 3E1 - Général").profession = none ∧
    (extract_personal_info "Classe : 3E1 - Général").situation = none ∧
    (extract_personal_info "Classe : 3E1 - Général").adresse = none ∧
    (extract_personal_info "Classe : 3E1 - Général").code_postal = none ∧
    (extract_personal_info "Classe : 3E1 - Général").ville = none ∧
    (extract_personal_info "Classe : 3E1 - Général").telephone_fixe = none ∧
    (extract_personal_info "Classe : 3E1 - Général").telephone_mobile = none ∧
    (extract_personal_info "Classe : 3E1 - Général").email = none ∧
    (extract_personal_info "Classe : 3E1 - Général").legal = none ∧
    (extract_personal_info "Classe : 3E1 - Général").dates = [] ∧
    (extract_personal_info "Classe : 3E1 - Général").raw_text = "Classe : 3E1 - Général" :=
  ⟨by decide, by decide, by decide, by decide, by decide, by decide, by decide,
   by decide, by decide, by decide, by decide, by decide, by decide, by decide⟩

/-- Claim C8, counterexample: the JSON export passes each success
record's structured data through whole — the exported data of a record
extracted from "Bonjour" still carries rawText "Bonjour", so rawText is
not omitted. -/
theorem json_export_retains_raw_text :
    (export_to_json [process_image_text "a.png" "Bonjour"]).results.map
        (fun e => e.data.raw_text) = ["Bonjour"] := by
  decide

/-- A sample error-status record, as `process_single_image` builds one
on its exception path (empty raw text, default structured data, an error
message). -/
def sampleErrorRecord : ProcResult :=
  { filename := "bad.png"
    status := PStatus.error
    raw_text := ""
    structured_data := {}
    error := some "boom" }

/-- Claim C8 as amended: the structured JSON export contains, for every
success record of the batch, an entry with its filename and its entire
structured data unchanged — rawText included, nothing dropped or added —
while error records contribute no entry. -/
theorem json_export_spec :
    (∀ (rs : List ProcResult) (r : ProcResult), r ∈ rs → r.status = PStatus.success →
      ({ filename := r.filename, data := r.structured_data } : JsonEntry) ∈
        (export_to_json rs).results) ∧
    (export_to_json [sampleErrorRecord]).results = [] := by
  constructor
  · intro rs r hmem hst
    unfold export_to_json
    refine List.mem_map.mpr ⟨r, ?_, rfl⟩
    refine List.mem_filter.mpr ⟨hmem, ?_⟩
    rw [hst]
    rfl
  · decide

/-- Witness for the first conjunct of `json_export_spec` at a concrete
batch of one success record. -/
theorem json_export_spec_witness :
    ({ filename := "a.png",
       data := (process_image_text "a.png" "Bonjour").structured_data } : JsonEntry) ∈
      (export_to_json [process_image_text "a.png" "Bonjour"]).results :=
  json_export_spec.1 [process_image_text "a.png" "Bonjour"]
    (process_image_text "a.png" "Bonjour") (by simp) rfl

/-- Claim C9: the extraction engine is a pure function of its input
text — the same text always yields the same record, and the record a
text produces inside a batch does not depend on the inputs processed
before it. -/
theorem extraction_pure :
    ∀ (t : String) (ts : List String),
      extract_personal_info t = extract_personal_info t ∧
        (ts ++ [t]).map extract_personal_info =
          ts.map extract_personal_info ++ [extract_personal_info t] :=
  fun t ts => ⟨rfl, List.map_append extract_personal_info ts [t]⟩

/-- Claim C10, counterexample: on the single line "a@b.com c@d.com" the
stored email is "a@b.com", the first (leftmost) match of the line — not
the last matching substring of the text. -/
theorem email_not_last_substring :
    (extract_personal_info "a@b.com c@d.com").email = some "a@b.com" ∧
      (extract_personal_info "a@b.com c@d.com").email ≠ some "c@d.com" :=
  ⟨by decide, by decide⟩

/-- Claim C10 as amended: the record carries an email field (absent from
the specified data model); it holds the leftmost match of the last line
containing one — later matching lines overwrite earlier ones, but within
a line the first match wins — and none when no line matches; the stored
value appears in the plain-text export and in the CSV rows. -/
theorem email_field_spec :
    (extract_personal_info "a@b.com c@d.com").email = some "a@b.com" ∧
    (extract_personal_info "a@b.com\nc@d.com").email = some "c@d.com" ∧
    (extract_personal_info "no email here").email = none ∧
    "✉️  Email: a@b.com" ∈
      export_to_txt_lines "01/01/2025 00:00" [process_image_text "f.png" "a@b.com"] ∧
    (csvRows [process_image_text "f.png" "a@b.com"]).map (fun r => r.email) =
      [some "a@b.com"] :=
  ⟨by decide, by decide, by decide, by decide, by decide⟩
